import Mathlib

/-!
Verification of the typefree dictation-session orchestrator and native
paste subsystem.

The definitions below are a shallow embedding of the JavaScript source:

* `isActiveToken` and the event handlers come from
  `src/hooks/useAudioRecording.js`;
* the overlay sound-effects consumer comes from
  `src/components/RecordingOverlay.jsx`;
* the hotkey registration fallback comes from `src/hooks/useHotkey.js`;
* the native paste executor lives in the Tauri backend, which is not part
  of the analysed sources, so it is modelled from the design document
  (section 4.2 of the spec); those definitions carry a
  `Modelled from the spec:` doc comment.

State is passed explicitly; side effects (sounds, window calls, pastes,
toasts) are collected into lists of `Effect` values.
-/

namespace Typefree

/-! ## Session generation guard (useAudioRecording.js lines 5-21) -/

/-- Generation tokens are strings in the source
(`Date.now()-random` at line 42). -/
abbrev Token := String

/-- Outcome of reading the global active-token slot
(`window[ACTIVE_AUDIO_MANAGER_TOKEN_KEY]`): either the read succeeds and
yields the stored token (`none` models `undefined`), or the property read
throws. -/
inductive TokenRead where
  | ok (active : Option Token)
  | threw
deriving DecidableEq, Repr

/-- `isActiveToken` (lines 15-21): compare the stored token with the
captured one; if the read throws, the `catch` branch returns `true`. -/
def isActiveToken (token : Token) (r : TokenRead) : Bool :=
  match r with
  | .ok active => active == some token
  | .threw => true

/-! ## Audio-manager state as observed by the handlers -/

/-- The state record returned by `audioManagerRef.current.getState()`. -/
structure AMState where
  isRecording : Bool
  isProcessing : Bool
  isStarting : Bool
deriving DecidableEq, Repr

/-- Observable side effects of the handlers and callbacks. -/
inductive Effect where
  | showWindow
  | playStartSound
  | playStopSound
  | playCompleteSound
  | playErrorSound
  | startCapture
  | stopCapture
  | hideWindow
  | toast (title description : String)
  | pasteText (text : String)
  | saveTranscription (text : String)
deriving DecidableEq, Repr

/-- Modelled from the spec: the effect of `AudioManager.startRecording` on
the audio-manager state (the AudioManager implementation is not among the
analysed sources).  Spec section 4.1: `Idle --Toggle/PushStart--> Starting`. -/
def startRecordingState (_s : AMState) : AMState :=
  { isRecording := false, isProcessing := false, isStarting := true }

/-- Modelled from the spec: the effect of
`AudioManager.requestStop`/`stopRecording` on the audio-manager state (the
AudioManager implementation is not among the analysed sources).  Spec
section 4.1: `Recording --Toggle/PushStop--> Transcribing`, which the
handlers observe as `isProcessing`. -/
def requestStopState (_s : AMState) : AMState :=
  { isRecording := false, isProcessing := true, isStarting := false }

/-- The effects of the stop branch shared by `handleToggle` and
`handleStop`: `playStopSound()` then `requestStop() || stopRecording()`. -/
def stopEffects : List Effect := [Effect.playStopSound, Effect.stopCapture]

/-- Post-guard body of `handleToggle` (useAudioRecording.js lines 105-119):
start if neither recording nor processing nor starting, else stop if
recording or starting, else do nothing. -/
def stepToggle (s : AMState) : AMState × List Effect :=
  if !s.isRecording && !s.isProcessing && !s.isStarting then
    (startRecordingState s, [Effect.showWindow, Effect.playStartSound, Effect.startCapture])
  else if s.isRecording || s.isStarting then
    (requestStopState s, stopEffects)
  else
    (s, [])

/-- Post-guard body of `handleStart` (lines 122-131): push-to-talk start,
only the start branch. -/
def stepStart (s : AMState) : AMState × List Effect :=
  if !s.isRecording && !s.isProcessing && !s.isStarting then
    (startRecordingState s, [Effect.showWindow, Effect.playStartSound, Effect.startCapture])
  else
    (s, [])

/-- Post-guard body of `handleStop` (lines 134-142): push-to-talk stop,
fires when `isRecording || isStarting`. -/
def stepStop (s : AMState) : AMState × List Effect :=
  if s.isRecording || s.isStarting then
    (requestStopState s, stopEffects)
  else
    (s, [])

/-- `handleToggle` with its generation guard (line 106). -/
def handleToggle (token : Token) (r : TokenRead) (s : AMState) : AMState × List Effect :=
  if !(isActiveToken token r) then (s, []) else stepToggle s

/-- `handleStart` with its generation guard (line 123). -/
def handleStart (token : Token) (r : TokenRead) (s : AMState) : AMState × List Effect :=
  if !(isActiveToken token r) then (s, []) else stepStart s

/-- `handleStop` with its generation guard (line 135). -/
def handleStop (token : Token) (r : TokenRead) (s : AMState) : AMState × List Effect :=
  if !(isActiveToken token r) then (s, []) else stepStop s

/-! ## Hotkey events and event sequences -/

/-- Hotkey events dispatched to the handlers (spec section 3). -/
inductive HotkeyEvent where
  | toggle
  | pushStart
  | pushStop
deriving DecidableEq, Repr

/-- Dispatch one event to its handler body. -/
def step (s : AMState) : HotkeyEvent → AMState × List Effect
  | .toggle => stepToggle s
  | .pushStart => stepStart s
  | .pushStop => stepStop s

/-- Run a sequence of events, collecting the per-event effect lists. -/
def runEvents (s : AMState) : List HotkeyEvent → AMState × List (List Effect)
  | [] => (s, [])
  | e :: rest =>
    let p := step s e
    let q := runEvents p.1 rest
    (q.1, p.2 :: q.2)

/-- Number of events in a run that produced at least one effect. -/
def countEffectful (l : List (List Effect)) : Nat :=
  (l.filter (fun effs => !effs.isEmpty)).length

/-- Audio-manager flags corresponding to Phase `Idle`. -/
def idleS : AMState := { isRecording := false, isProcessing := false, isStarting := false }

/-- Audio-manager flags corresponding to Phase `Starting`. -/
def startingS : AMState := { isRecording := false, isProcessing := false, isStarting := true }

/-- Audio-manager flags corresponding to Phase `Recording`. -/
def recordingS : AMState := { isRecording := true, isProcessing := false, isStarting := false }

/-- Audio-manager flags corresponding to Phases `Transcribing` and
`Pasting`, both observed as `isProcessing` by the handlers. -/
def procS : AMState := { isRecording := false, isProcessing := true, isStarting := false }

/-! ## Helper lemmas about event runs -/

/-- With a live token, the guarded toggle handler is its body. -/
lemma handleToggle_live (token : Token) (s : AMState) :
    handleToggle token (TokenRead.ok (some token)) s = stepToggle s := by
  simp [handleToggle, isActiveToken]

/-- Every event is absorbed by the processing state: no transition, no
effects. -/
lemma step_procS (e : HotkeyEvent) : step procS e = (procS, []) := by
  cases e <;> rfl

/-- Whole runs are absorbed by the processing state. -/
lemma runEvents_procS (evs : List HotkeyEvent) :
    runEvents procS evs = (procS, evs.map (fun _ => ([] : List Effect))) := by
  induction evs with
  | nil => rfl
  | cons e rest ih => simp [runEvents, step_procS e, ih]

/-- Runs from the processing state have no effectful step. -/
lemma countEffectful_procS (evs : List HotkeyEvent) :
    countEffectful (runEvents procS evs).2 = 0 := by
  simp [runEvents_procS, countEffectful, List.filter_eq_nil_iff]

/-- From `Starting` or `Recording`, a run without `pushStop` has at most
one effectful step, and any effectful step is the stop transition. -/
lemma run_from_active (s0 : AMState) (hb : s0 = startingS ∨ s0 = recordingS)
    (evs : List HotkeyEvent) (hns : ∀ e ∈ evs, e ≠ HotkeyEvent.pushStop) :
    countEffectful (runEvents s0 evs).2 ≤ 1 ∧
      ∀ effs ∈ (runEvents s0 evs).2, effs = [] ∨ effs = stopEffects := by
  induction evs generalizing s0 with
  | nil => simp [runEvents, countEffectful]
  | cons e rest ih =>
    have hstep : step s0 e = (s0, []) ∨ step s0 e = (procS, stopEffects) := by
      rcases hb with h | h <;> subst h <;> cases e
      · right; rfl
      · left; rfl
      · exact absurd rfl (hns _ (List.mem_cons_self _ _))
      · right; rfl
      · left; rfl
      · exact absurd rfl (hns _ (List.mem_cons_self _ _))
    have hrest : ∀ e2 ∈ rest, e2 ≠ HotkeyEvent.pushStop :=
      fun e2 he2 => hns e2 (List.mem_cons_of_mem _ he2)
    rcases hstep with h | h
    · have := ih s0 hb hrest
      simp only [runEvents, h, countEffectful] at *
      constructor
      · simpa [countEffectful] using this.1
      · intro effs heffs
        rcases List.mem_cons.mp heffs with h2 | h2
        · exact Or.inl h2
        · exact this.2 effs h2
    · constructor
      · simp only [runEvents, h, countEffectful]
        have h0 : countEffectful (runEvents procS rest).2 = 0 := countEffectful_procS rest
        simp only [countEffectful] at h0
        simp [stopEffects, List.length_filter_le, h0]
      · intro effs heffs
        simp only [runEvents, h] at heffs
        rcases List.mem_cons.mp heffs with h2 | h2
        · exact Or.inr h2
        · left
          rw [runEvents_procS] at h2
          obtain ⟨a, _, heq⟩ := List.mem_map.mp h2
          exact heq.symm

/-! ## C1: re-entrant start events -/

/-- C1 counterexample: the claim says extra events delivered while the
capture is Starting are no-ops (the only exception being the stop
transition taken from Recording), but a `Toggle` delivered in `Starting`
takes the stop branch of `handleToggle` (line 114 tests
`isRecording || isStarting`): it emits the stop effects and changes the
state, and `Starting` is not `Recording`. -/
theorem toggle_in_starting_not_noop :
    handleToggle "g1" (TokenRead.ok (some "g1")) startingS = (procS, stopEffects) ∧
    stopEffects ≠ [] ∧ procS ≠ startingS ∧ startingS ≠ recordingS := by
  decide

/-- C1 (amended): for every sequence of `Toggle`/`PushStart` events
delivered while the capture is already starting, recording or processing,
the extra events are no-ops — state unchanged, no effects — except a
single stop transition, which the code takes from `Recording` or
`Starting` (the stop branch fires on `isRecording || isStarting`): at most
one event of the run produces effects, and any effects produced are
exactly the stop-branch effects. -/
theorem reentrant_events_guarded (s0 : AMState)
    (hb : s0 = startingS ∨ s0 = recordingS ∨ s0 = procS)
    (evs : List HotkeyEvent) (hns : ∀ e ∈ evs, e ≠ HotkeyEvent.pushStop) :
    countEffectful (runEvents s0 evs).2 ≤ 1 ∧
      ∀ effs ∈ (runEvents s0 evs).2, effs = [] ∨ effs = stopEffects := by
  rcases hb with h | h | h
  · exact run_from_active s0 (Or.inl h) evs hns
  · exact run_from_active s0 (Or.inr h) evs hns
  · subst h
    refine ⟨le_trans (le_of_eq (countEffectful_procS evs)) (Nat.zero_le 1), ?_⟩
    intro effs heffs
    rw [runEvents_procS] at heffs
    obtain ⟨a, _, heq⟩ := List.mem_map.mp heffs
    exact Or.inl heq.symm

/-- C1 witness: a double `Toggle` plus a `PushStart` delivered from
`Recording` produce exactly one effectful step. -/
theorem reentrant_events_guarded_witness :
    (recordingS = startingS ∨ recordingS = recordingS ∨ recordingS = procS) ∧
    (∀ e ∈ [HotkeyEvent.toggle, HotkeyEvent.toggle, HotkeyEvent.pushStart],
        e ≠ HotkeyEvent.pushStop) ∧
    (countEffectful
        (runEvents recordingS
          [HotkeyEvent.toggle, HotkeyEvent.toggle, HotkeyEvent.pushStart]).2 ≤ 1 ∧
      ∀ effs ∈ (runEvents recordingS
          [HotkeyEvent.toggle, HotkeyEvent.toggle, HotkeyEvent.pushStart]).2,
        effs = [] ∨ effs = stopEffects) :=
  ⟨Or.inr (Or.inl rfl), by decide,
    reentrant_events_guarded recordingS (Or.inr (Or.inl rfl))
      [HotkeyEvent.toggle, HotkeyEvent.toggle, HotkeyEvent.pushStart] (by decide)⟩

/-! ## C7: push-to-talk stop outside Recording -/

/-- C7 counterexample: the claim says `PushStop` in any state other than
`Recording` is a no-op, but `handleStop` fires its stop branch when
`isRecording || isStarting` (line 137): delivered in `Starting` — a state
other than `Recording` — it emits the stop effects and changes the
state. -/
theorem pushStop_in_starting_not_noop :
    handleStop "g1" (TokenRead.ok (some "g1")) startingS = (procS, stopEffects) ∧
    stopEffects ≠ [] ∧ procS ≠ startingS ∧ startingS ≠ recordingS := by
  decide

/-- C7 (amended): a `PushStop` received in any state with neither
`isRecording` nor `isStarting` set (i.e. any state other than `Recording`
or `Starting`) is a no-op: no state transition and no effects. -/
theorem pushStop_noop_outside_active (token : Token) (r : TokenRead) (s : AMState)
    (h1 : s.isRecording = false) (h2 : s.isStarting = false) :
    handleStop token r s = (s, []) := by
  simp [handleStop, stepStop, h1, h2]

/-- C7 witness: `PushStop` delivered while `Idle` is a no-op. -/
theorem pushStop_noop_outside_active_witness :
    idleS.isRecording = false ∧ idleS.isStarting = false ∧
    handleStop "g1" (TokenRead.ok (some "g1")) idleS = (idleS, []) :=
  ⟨rfl, rfl, pushStop_noop_outside_active "g1" (TokenRead.ok (some "g1")) idleS rfl rfl⟩

/-! ## Session callbacks (useAudioRecording.js lines 65-101) -/

/-- The React-visible session state mutated by the callbacks
(`isRecording`, `isProcessing`, `transcript`). -/
structure SessionState where
  isRecording : Bool
  isProcessing : Bool
  transcript : String
deriving DecidableEq, Repr

/-- Argument of the `onStateChange` callback. -/
structure StateChangeArg where
  isRecording : Bool
  isProcessing : Bool
deriving DecidableEq, Repr

/-- Argument of the `onError` callback. -/
structure ErrorArg where
  title : String
  description : String
deriving DecidableEq, Repr

/-- Argument of the `onTranscriptionComplete` callback. -/
structure TranscriptionResult where
  success : Bool
  text : String
deriving DecidableEq, Repr

/-- `onStateChange` (lines 66-70): guarded by the captured generation
token, then copies the flags into React state. -/
def onStateChange (token : Token) (r : TokenRead) (arg : StateChangeArg)
    (s : SessionState) : SessionState × List Effect :=
  if !(isActiveToken token r) then (s, [])
  else ({ s with isRecording := arg.isRecording, isProcessing := arg.isProcessing }, [])

/-- `onError` (lines 71-78): guarded, then shows a destructive toast. -/
def onError (token : Token) (r : TokenRead) (e : ErrorArg)
    (s : SessionState) : SessionState × List Effect :=
  if !(isActiveToken token r) then (s, [])
  else (s, [Effect.toast e.title e.description])

/-- `onTranscriptionComplete` (lines 79-101): guarded; on success stores
the transcript, plays the completion sound, hides the window, and
schedules the deferred paste. -/
def onTranscriptionComplete (token : Token) (r : TokenRead)
    (res : TranscriptionResult) (s : SessionState) : SessionState × List Effect :=
  if !(isActiveToken token r) then (s, [])
  else if res.success then
    ({ s with transcript := res.text }, [Effect.playCompleteSound, Effect.hideWindow])
  else (s, [])

/-- The deferred paste body inside the 500 ms `setTimeout`
(lines 93-99): re-checks the captured token, then pastes and saves the
transcription. -/
def deferredPaste (token : Token) (r : TokenRead) (text : String)
    (s : SessionState) : SessionState × List Effect :=
  if !(isActiveToken token r) then (s, [])
  else (s, [Effect.pasteText text, Effect.saveTranscription text])

/-! ## C2: stale-generation idempotence -/

/-- C2: once a new generation token `g2` has replaced `g1`, resolving any
callback captured under `g1` — state change, error, transcription
completion, or the deferred paste — leaves the session state unchanged
and produces no effects. -/
theorem stale_generation_noop (g1 g2 : Token) (hne : g1 ≠ g2)
    (arg : StateChangeArg) (e : ErrorArg) (res : TranscriptionResult)
    (text : String) (s : SessionState) :
    onStateChange g1 (TokenRead.ok (some g2)) arg s = (s, []) ∧
    onError g1 (TokenRead.ok (some g2)) e s = (s, []) ∧
    onTranscriptionComplete g1 (TokenRead.ok (some g2)) res s = (s, []) ∧
    deferredPaste g1 (TokenRead.ok (some g2)) text s = (s, []) := by
  have hg : isActiveToken g1 (TokenRead.ok (some g2)) = false := by
    simp only [isActiveToken, beq_eq_false_iff_ne, ne_eq, Option.some.injEq]
    exact fun h => hne h.symm
  refine ⟨?_, ?_, ?_, ?_⟩ <;>
    simp [onStateChange, onError, onTranscriptionComplete, deferredPaste, hg]

/-- C2 witness: concrete stale callbacks under token `g1` after `g2` was
issued are all no-ops. -/
theorem stale_generation_noop_witness :
    ("g1" : Token) ≠ "g2" ∧
    (onStateChange "g1" (TokenRead.ok (some "g2"))
        { isRecording := true, isProcessing := false }
        { isRecording := false, isProcessing := false, transcript := "" }
      = ({ isRecording := false, isProcessing := false, transcript := "" }, []) ∧
     onError "g1" (TokenRead.ok (some "g2")) { title := "t", description := "d" }
        { isRecording := false, isProcessing := false, transcript := "" }
      = ({ isRecording := false, isProcessing := false, transcript := "" }, []) ∧
     onTranscriptionComplete "g1" (TokenRead.ok (some "g2"))
        { success := true, text := "hello" }
        { isRecording := false, isProcessing := false, transcript := "" }
      = ({ isRecording := false, isProcessing := false, transcript := "" }, []) ∧
     deferredPaste "g1" (TokenRead.ok (some "g2")) "hello"
        { isRecording := false, isProcessing := false, transcript := "" }
      = ({ isRecording := false, isProcessing := false, transcript := "" }, [])) :=
  ⟨by decide,
    stale_generation_noop "g1" "g2" (by decide)
      { isRecording := true, isProcessing := false }
      { title := "t", description := "d" }
      { success := true, text := "hello" } "hello"
      { isRecording := false, isProcessing := false, transcript := "" }⟩

/-! ## C10: the generation guard fails open -/

/-- C10: `isActiveToken` fails open — when reading the globally stored
active token throws, it returns `true` for every token, so a guarded
callback whose staleness cannot be determined is executed rather than
dropped (shown here for `onStateChange`, which then applies its state
update). -/
theorem guard_fails_open (g : Token) (arg : StateChangeArg) (s : SessionState) :
    isActiveToken g TokenRead.threw = true ∧
    onStateChange g TokenRead.threw arg s
      = ({ s with isRecording := arg.isRecording,
                  isProcessing := arg.isProcessing }, []) := by
  exact ⟨rfl, by simp [onStateChange, isActiveToken]⟩

/-! ## Native paste executor

The paste routine itself lives in the Tauri backend
(`src-tauri/src/commands/clipboard.rs`), which is not among the analysed
front-end sources; only its design document is.  It is therefore modelled
from the spec (section 4.2), step by step. -/

/-- Result of the input-synthesis permission query (spec section 3). -/
inductive PermissionStatus where
  | granted
  | denied
deriving DecidableEq, Repr

/-- Clipboard content: text, an image, or empty (spec section 3,
`ClipboardSnapshot.content`). -/
inductive Clip where
  | empty
  | text (s : String)
  | image (id : Nat)
deriving DecidableEq, Repr

/-- Tagged paste errors (spec section 4.2). -/
inductive PasteError where
  | permissionDenied
  | synthesisFailed
  | clipboardWriteFailed
deriving DecidableEq, Repr

/-- A key code used for synthesis: a physical key-position code or a
logical/Unicode character code (spec section 4.2 step 5). -/
inductive KeyCode where
  | physical (code : Nat)
  | logical (c : Char)
deriving DecidableEq, Repr

/-- One recorded input-synthesis invocation: on which context it ran and
which key code it pressed. -/
structure SynthCall where
  onDesignatedContext : Bool
  key : KeyCode
deriving DecidableEq, Repr

/-- Environment of one `paste` run: the fresh permission answer, the prior
clipboard, and which fallible steps fail in this run. -/
structure PasteEnv where
  permission : PermissionStatus
  clipboard : Clip
  snapshotFails : Bool
  writeFails : Bool
  synthesisFails : Bool
deriving DecidableEq, Repr

/-- Outcome of one `paste` run: the returned result (`none` is success),
the final clipboard content, and the synthesis invocations made. -/
structure PasteOutcome where
  result : Option PasteError
  clipboard : Clip
  synthCalls : List SynthCall
deriving DecidableEq, Repr

/-- Modelled from the spec: `runOnDesignatedContext` (section 6) is the
only legal way to invoke input synthesis; it marshals the invocation onto
the single designated execution context, so every call it produces is
tagged as running there. -/
def runOnDesignatedContext (k : KeyCode) : SynthCall :=
  { onDesignatedContext := true, key := k }

/-- Modelled from the spec: `paste(text)` of the Native Paste Executor
(section 4.2), whose implementation is in the Tauri backend and not among
the analysed sources.  Steps, each failure short-circuiting the rest:
1. query the Capability Gate; on `denied`, best-effort write `text` to the
   clipboard and return `permissionDenied`;
2. snapshot the clipboard, tolerating snapshot failure by proceeding with
   an empty snapshot;
3. write `text` to the clipboard (failure returns
   `clipboardWriteFailed`);
4. settle delay (no observable effect in the model);
5. synthesize the paste combination via `runOnDesignatedContext`, with the
   physical key-position code 0x09; on failure return `synthesisFailed`
   and skip the restore, leaving `text` on the clipboard;
6. restore the snapshot from step 2 and return success. -/
def paste (txt : String) (env : PasteEnv) : PasteOutcome :=
  if env.permission = PermissionStatus.denied then
    { result := some PasteError.permissionDenied,
      clipboard := if env.writeFails then env.clipboard else Clip.text txt,
      synthCalls := [] }
  else
    let snapshot := if env.snapshotFails then Clip.empty else env.clipboard
    if env.writeFails then
      { result := some PasteError.clipboardWriteFailed,
        clipboard := env.clipboard,
        synthCalls := [] }
    else
      let call := runOnDesignatedContext (KeyCode.physical 0x09)
      if env.synthesisFails then
        { result := some PasteError.synthesisFailed,
          clipboard := Clip.text txt,
          synthCalls := [call] }
      else
        { result := none,
          clipboard := snapshot,
          synthCalls := [call] }

/-! ## C3: permission denied is a safe landing -/

/-- C3: if the permission query answers `denied` and the best-effort
clipboard write goes through, `paste txt` returns `permissionDenied`,
never invokes `runOnDesignatedContext` (no synthesis call is recorded),
and the clipboard afterwards contains exactly `txt`. -/
theorem paste_denied_safe_landing (txt : String) (env : PasteEnv)
    (hperm : env.permission = PermissionStatus.denied)
    (hw : env.writeFails = false) :
    (paste txt env).result = some PasteError.permissionDenied ∧
    (paste txt env).synthCalls = [] ∧
    (paste txt env).clipboard = Clip.text txt := by
  simp [paste, hperm, hw]

/-- C3 witness: a concrete denied run with a nonempty prior clipboard. -/
theorem paste_denied_safe_landing_witness :
    ({ permission := PermissionStatus.denied, clipboard := Clip.text "prev",
       snapshotFails := false, writeFails := false,
       synthesisFails := false } : PasteEnv).permission = PermissionStatus.denied ∧
    ({ permission := PermissionStatus.denied, clipboard := Clip.text "prev",
       snapshotFails := false, writeFails := false,
       synthesisFails := false } : PasteEnv).writeFails = false ∧
    ((paste "draft text"
        { permission := PermissionStatus.denied, clipboard := Clip.text "prev",
          snapshotFails := false, writeFails := false,
          synthesisFails := false }).result = some PasteError.permissionDenied ∧
     (paste "draft text"
        { permission := PermissionStatus.denied, clipboard := Clip.text "prev",
          snapshotFails := false, writeFails := false,
          synthesisFails := false }).synthCalls = [] ∧
     (paste "draft text"
        { permission := PermissionStatus.denied, clipboard := Clip.text "prev",
          snapshotFails := false, writeFails := false,
          synthesisFails := false }).clipboard = Clip.text "draft text") :=
  ⟨rfl, rfl,
    paste_denied_safe_landing "draft text"
      { permission := PermissionStatus.denied, clipboard := Clip.text "prev",
        snapshotFails := false, writeFails := false, synthesisFails := false }
      rfl rfl⟩

/-! ## C4: snapshot/restore round trip -/

/-- C4: for any prior clipboard content, including empty, a successful
paste restores the snapshot taken before the paste began, so the clipboard
read back equals the prior content whenever the snapshot succeeded; and a
snapshot failure does not block the paste — the run returns exactly the
same result as the run in which the snapshot succeeded (an empty snapshot
is used instead). -/
theorem paste_roundtrip (txt : String) (env : PasteEnv) :
    ((paste txt { env with snapshotFails := false }).result = none →
      (paste txt { env with snapshotFails := false }).clipboard = env.clipboard) ∧
    (paste txt { env with snapshotFails := true }).result
      = (paste txt { env with snapshotFails := false }).result := by
  obtain ⟨perm, clip, sf, wf, synf⟩ := env
  cases perm <;> cases wf <;> cases synf <;> simp [paste]

/-- C4 witness: a concrete successful paste over a nonempty prior
clipboard restores it, and the same run with a failing snapshot still
succeeds. -/
theorem paste_roundtrip_witness :
    ((paste "hello world"
        { permission := PermissionStatus.granted, clipboard := Clip.text "previous",
          snapshotFails := false, writeFails := false,
          synthesisFails := false }).result = none →
      (paste "hello world"
        { permission := PermissionStatus.granted, clipboard := Clip.text "previous",
          snapshotFails := false, writeFails := false,
          synthesisFails := false }).clipboard = Clip.text "previous") ∧
    (paste "hello world"
        { permission := PermissionStatus.granted, clipboard := Clip.text "previous",
          snapshotFails := true, writeFails := false,
          synthesisFails := false }).result
      = (paste "hello world"
          { permission := PermissionStatus.granted, clipboard := Clip.text "previous",
            snapshotFails := false, writeFails := false,
            synthesisFails := false }).result :=
  paste_roundtrip "hello world"
    { permission := PermissionStatus.granted, clipboard := Clip.text "previous",
      snapshotFails := false, writeFails := false, synthesisFails := false }

/-! ## C5: synthesis failure skips the restore -/

/-- C5: if the synthetic paste keystroke of step 5 fails, the restore of
step 6 is skipped — the run returns `synthesisFailed` and the clipboard
still contains the transcript text; and the restore happens only when
step 5 succeeded: a successful run ends with the clipboard holding the
step-2 snapshot (the prior content, or empty when the snapshot failed). -/
theorem paste_synthfail_keeps_transcript (txt : String) (env : PasteEnv) :
    (env.permission = PermissionStatus.granted → env.writeFails = false →
      env.synthesisFails = true →
      (paste txt env).result = some PasteError.synthesisFailed ∧
      (paste txt env).clipboard = Clip.text txt) ∧
    ((paste txt env).result = none →
      (paste txt env).clipboard
        = (if env.snapshotFails then Clip.empty else env.clipboard)) := by
  obtain ⟨perm, clip, sf, wf, synf⟩ := env
  cases perm <;> cases wf <;> cases synf <;> simp [paste]

/-- C5 witness: a concrete failing keystroke leaves the transcript on the
clipboard. -/
theorem paste_synthfail_keeps_transcript_witness :
    (({ permission := PermissionStatus.granted, clipboard := Clip.text "prev",
        snapshotFails := false, writeFails := false,
        synthesisFails := true } : PasteEnv).permission = PermissionStatus.granted →
      ({ permission := PermissionStatus.granted, clipboard := Clip.text "prev",
         snapshotFails := false, writeFails := false,
         synthesisFails := true } : PasteEnv).writeFails = false →
      ({ permission := PermissionStatus.granted, clipboard := Clip.text "prev",
         snapshotFails := false, writeFails := false,
         synthesisFails := true } : PasteEnv).synthesisFails = true →
      (paste "transcript"
          { permission := PermissionStatus.granted, clipboard := Clip.text "prev",
            snapshotFails := false, writeFails := false,
            synthesisFails := true }).result = some PasteError.synthesisFailed ∧
      (paste "transcript"
          { permission := PermissionStatus.granted, clipboard := Clip.text "prev",
            snapshotFails := false, writeFails := false,
            synthesisFails := true }).clipboard = Clip.text "transcript") ∧
    ((paste "transcript"
        { permission := PermissionStatus.granted, clipboard := Clip.text "prev",
          snapshotFails := false, writeFails := false,
          synthesisFails := true }).result = none →
      (paste "transcript"
          { permission := PermissionStatus.granted, clipboard := Clip.text "prev",
            snapshotFails := false, writeFails := false,
            synthesisFails := true }).clipboard
        = (if ({ permission := PermissionStatus.granted, clipboard := Clip.text "prev",
                 snapshotFails := false, writeFails := false,
                 synthesisFails := true } : PasteEnv).snapshotFails
            then Clip.empty else Clip.text "prev")) :=
  paste_synthfail_keeps_transcript "transcript"
    { permission := PermissionStatus.granted, clipboard := Clip.text "prev",
      snapshotFails := false, writeFails := false, synthesisFails := true }

/-! ## C6: synthesis is marshalled and layout-independent -/

/-- C6: every input-synthesis invocation recorded by any `paste` run is
marshalled onto the designated execution context (never called inline)
and presses the physical key-position code 0x09, never a logical/Unicode
character code. -/
theorem paste_synthesis_marshalled (txt : String) (env : PasteEnv)
    (c : SynthCall) (hc : c ∈ (paste txt env).synthCalls) :
    c.onDesignatedContext = true ∧ c.key = KeyCode.physical 0x09 := by
  obtain ⟨perm, clip, sf, wf, synf⟩ := env
  cases perm <;> cases wf <;> cases synf <;>
    simp [paste, runOnDesignatedContext] at hc <;> simp [hc]

/-- C6 witness: the single synthesis call of a concrete successful run is
on the designated context with the physical code 0x09. -/
theorem paste_synthesis_marshalled_witness :
    ({ onDesignatedContext := true, key := KeyCode.physical 0x09 } : SynthCall)
        ∈ (paste "hello"
            { permission := PermissionStatus.granted, clipboard := Clip.empty,
              snapshotFails := false, writeFails := false,
              synthesisFails := false }).synthCalls ∧
    (({ onDesignatedContext := true, key := KeyCode.physical 0x09 } : SynthCall).onDesignatedContext
        = true ∧
      ({ onDesignatedContext := true, key := KeyCode.physical 0x09 } : SynthCall).key
        = KeyCode.physical 0x09) :=
  ⟨by decide,
    paste_synthesis_marshalled "hello"
      { permission := PermissionStatus.granted, clipboard := Clip.empty,
        snapshotFails := false, writeFails := false, synthesisFails := false }
      { onDesignatedContext := true, key := KeyCode.physical 0x09 } (by decide)⟩

/-! ## Broadcast consumers of `backend-dictation-recording` -/

/-- State of the overlay sound-effects listener
(RecordingOverlay.jsx lines 80-99): the `lastRecordingRef` plus counters
of the audible cues it has played. -/
structure OverlaySoundState where
  lastRecording : Bool
  startCues : Nat
  stopCues : Nat
deriving DecidableEq, Repr

/-- The overlay `backend-dictation-recording` listener
(RecordingOverlay.jsx lines 89-99): stores the payload into
`lastRecordingRef`, then plays the start cue only on the semantic
transition `false → true` and the stop cue only on `true → false`. -/
def overlayOnRecording (payload : Bool) (st : OverlaySoundState) : OverlaySoundState :=
  let next := payload
  let prev := st.lastRecording
  if next && !prev then
    { lastRecording := next, startCues := st.startCues + 1, stopCues := st.stopCues }
  else if !next && prev then
    { lastRecording := next, startCues := st.startCues, stopCues := st.stopCues + 1 }
  else
    { st with lastRecording := next }

/-- Deliver a sequence of `backend-dictation-recording` payloads to the
overlay listener. -/
def overlayRun (st : OverlaySoundState) (evs : List Bool) : OverlaySoundState :=
  evs.foldl (fun a b => overlayOnRecording b a) st

/-- The `onBackendDictationRecording` consumer of useAudioRecording.js
(lines 196-207): guarded by the generation token, it stores the flag and
plays the start or stop sound on every event, with no transition
de-duplication. -/
def hookOnRecording (token : Token) (r : TokenRead) (value : Bool)
    (s : SessionState) : SessionState × List Effect :=
  if !(isActiveToken token r) then (s, [])
  else ({ s with isRecording := value },
        [if value then Effect.playStartSound else Effect.playStopSound])

/-- Deliver a sequence of payloads to the useAudioRecording consumer,
concatenating the effects. -/
def hookRun (token : Token) (r : TokenRead) (s : SessionState) :
    List Bool → SessionState × List Effect
  | [] => (s, [])
  | v :: rest =>
    let p := hookOnRecording token r v s
    let q := hookRun token r p.1 rest
    (q.1, p.2 ++ q.2)

/-! ## C8: de-duplication of redundant recording events -/

/-- C8 counterexample: not every consumer that triggers a one-shot audible
cue dedupes on the semantic transition — the `onBackendDictationRecording`
consumer of useAudioRecording.js plays the start sound on every event, so
two `RecordingChanged(true)` events in direct succession trigger the start
cue twice. -/
theorem hook_consumer_double_fires :
    (hookRun "g1" (TokenRead.ok (some "g1"))
        { isRecording := false, isProcessing := false, transcript := "" }
        [true, true]).2.count Effect.playStartSound = 2 := by
  decide

/-- C8 (amended): the overlay sound-effects consumer
(RecordingOverlay.jsx) does dedupe on the semantic transition
`recording false → true`: from any state not currently recording, two
`RecordingChanged(true)` events in direct succession trigger the start cue
exactly once (and no stop cue); the useAudioRecording consumer plays a cue
per raw event instead. -/
theorem overlay_consumer_dedupes (st : OverlaySoundState)
    (h : st.lastRecording = false) :
    overlayRun st [true, true]
      = { lastRecording := true, startCues := st.startCues + 1,
          stopCues := st.stopCues } := by
  obtain ⟨last, a, b⟩ := st
  subst h
  simp [overlayRun, overlayOnRecording]

/-- C8 witness: from the initial overlay state, two redundant
`RecordingChanged(true)` deliveries play exactly one start cue. -/
theorem overlay_consumer_dedupes_witness :
    ({ lastRecording := false, startCues := 0, stopCues := 0 }
        : OverlaySoundState).lastRecording = false ∧
    overlayRun { lastRecording := false, startCues := 0, stopCues := 0 } [true, true]
      = { lastRecording := true, startCues := 0 + 1, stopCues := 0 } :=
  ⟨rfl, overlay_consumer_dedupes
    { lastRecording := false, startCues := 0, stopCues := 0 } rfl⟩

/-! ## Hotkey registration fallback (useHotkey.js lines 37-77) -/

/-- Result object of `window.electronAPI.updateHotkey`; `result?.success`
treats a missing result as failure. -/
structure RegResult where
  success : Bool
deriving DecidableEq, Repr

/-- `result?.success` coerced to a boolean: `undefined` is falsy. -/
def successOf : Option RegResult → Bool
  | some r => r.success
  | none => false

/-- Observable outcome of one resolution of the `registerWithDelay`
promise chain: the hotkeys passed to `updateHotkey` in order, the write to
`localStorage` under `"dictationKey"` (if any), the `setHotkey` update (if
any), the final `hotkeyRegistered` flag, and the number of user-facing
prompts shown. -/
structure HotkeyOutcome where
  attempts : List String
  storedDictationKey : Option String
  displayedHotkey : Option String
  hotkeyRegistered : Bool
  prompts : Nat
deriving DecidableEq, Repr

/-- Resolution of the `updateHotkey` promise in `registerWithDelay`
(useHotkey.js lines 41-67): on success, done; on failure, when the saved
hotkey is not `"F1"` and the API is available, silently try `"F1"`; if
that fallback succeeds, persist `"F1"` to `localStorage` under
`"dictationKey"`, update the displayed hotkey, and keep the registered
flag; otherwise clear the flag to allow a retry.  No branch shows a
user-facing prompt. -/
def resolveRegistration (hotkeyToUse : String) (apiAvailable : Bool)
    (first : Option RegResult) (fallback : Option RegResult) : HotkeyOutcome :=
  if successOf first then
    { attempts := [hotkeyToUse], storedDictationKey := none,
      displayedHotkey := none, hotkeyRegistered := true, prompts := 0 }
  else if hotkeyToUse != "F1" && apiAvailable then
    if successOf fallback then
      { attempts := [hotkeyToUse, "F1"], storedDictationKey := some "F1",
        displayedHotkey := some "F1", hotkeyRegistered := true, prompts := 0 }
    else
      { attempts := [hotkeyToUse, "F1"], storedDictationKey := none,
        displayedHotkey := none, hotkeyRegistered := false, prompts := 0 }
  else
    { attempts := [hotkeyToUse], storedDictationKey := none,
      displayedHotkey := none, hotkeyRegistered := false, prompts := 0 }

/-! ## C9: silent fallback to F1 -/

/-- C9: when registering the saved hotkey fails and that hotkey is not
`"F1"`, the hook silently attempts `"F1"`; when the fallback succeeds it
persists `"F1"` to localStorage under `"dictationKey"`, updates the
displayed hotkey to `"F1"`, and marks the hotkey registered — all without
any user-facing prompt. -/
theorem hotkey_silent_fallback (key : String) (first fallback : Option RegResult)
    (hfail : successOf first = false) (hkey : key ≠ "F1")
    (hfb : successOf fallback = true) :
    resolveRegistration key true first fallback
      = { attempts := [key, "F1"], storedDictationKey := some "F1",
          displayedHotkey := some "F1", hotkeyRegistered := true, prompts := 0 } := by
  simp [resolveRegistration, hfail, hfb, hkey]

/-- C9 witness: a failing registration of `"Q"` falls back to `"F1"` and
persists it silently. -/
theorem hotkey_silent_fallback_witness :
    successOf (some { success := false }) = false ∧
    ("Q" : String) ≠ "F1" ∧
    successOf (some { success := true }) = true ∧
    resolveRegistration "Q" true (some { success := false }) (some { success := true })
      = { attempts := ["Q", "F1"], storedDictationKey := some "F1",
          displayedHotkey := some "F1", hotkeyRegistered := true, prompts := 0 } :=
  ⟨rfl, by decide, rfl,
    hotkey_silent_fallback "Q" (some { success := false }) (some { success := true })
      rfl (by decide) rfl⟩

end Typefree
